import Mathlib

/-!
Verification development for the health-manager module of the senlin
repository (src/senlin/engine/health_manager.py).

The module is embedded shallowly: the mutable object state of the
`HealthManager` service (its `engine_id`, the `periodic_interval_max`
option, the in-memory runtime registry list `rt['registries']`, and the
timers held by its thread group `TG`) becomes an explicit state record,
and each method becomes a pure state transformer.  The durable registry
store (`senlin.db.api`, not part of the sources) is modelled from the
spec's Registry Store contract; the remote `cluster_check` RPC issued by
`_periodic_check` is modelled by a function from cluster ids to an
optional remote error, and the messaging client used by `notify` is
modelled by the possible outcomes of `call_context.call`.
-/

/-- A registry row / health-check subscription, as stored in the Registry
Store and held in the in-memory runtime registry (`rt['registries']`).
Fields follow the data model: `cluster_id`, owning `engine_id`,
`check_type`, polling `interval` in seconds. -/
structure Registry where
  cluster_id : String
  engine_id : String
  check_type : String
  interval : Nat
deriving DecidableEq

/-- The check type whose registrations get a polling timer. -/
def NODE_STATUS_POLLING : String := "NODE_STATUS_POLLING"

/-- The value installed as a timer's periodic callback.  `idleTask` is the
bound method `self._idle_task`; `periodicCheckFn c` is the bound method
`self._periodic_check` held for cluster `c` (what a correct installation
would pass); `noneValue` is the Python value `None` — which is what the
source actually passes, since it invokes `self._periodic_check(...)` and
hands its return value to `add_timer`. -/
inductive Callback where
  | idleTask : Callback
  | periodicCheckFn : String → Callback
  | noneValue : Callback
deriving DecidableEq

/-- A timer registered with the service's thread group: its period in
seconds and its installed callback. -/
structure Timer where
  interval : Nat
  callback : Callback
deriving DecidableEq

/-- The mutable state of a `HealthManager` instance: `engine_id` of the
hosting engine, the `periodic_interval_max` configuration captured at
construction, the in-memory runtime registry list `rt['registries']`, and
the timers added to the thread group `TG`. -/
structure HMState where
  engine_id : String
  periodic_interval_max : Nat
  registries : List Registry
  timers : List Timer
deriving DecidableEq

/-- `HealthManager.__init__`: fresh instance with empty runtime registry
and no timers. -/
def hmInit (engine_id : String) (periodic_interval_max : Nat) : HMState :=
  { engine_id := engine_id
    periodic_interval_max := periodic_interval_max
    registries := []
    timers := [] }

/-- Failure of the remote `cluster_check` call issued by the recovery
dispatch (`rpcc.cluster_check`). -/
inductive RemoteError where
  | remoteError : RemoteError
deriving DecidableEq

/-- Errors surfaced by the Registry Store. -/
inductive HMError where
  | duplicateSubscription : HMError
deriving DecidableEq

/-- The durable Registry Store content: one row per subscription. -/
abbrev Store := List Registry

/-- Environment model of the remote side of `rpcc.cluster_check`: for each
cluster id, `none` when the dispatched check completes, `some e` when it
fails remotely (timeout or remote error), in which case the Python call
raises. -/
abbrev Rpc := String → Option RemoteError

/-- An environment in which every dispatched remote check completes. -/
def rpcOk : Rpc := fun _ => none

/-- An environment in which every dispatched remote check fails. -/
def rpcFail : Rpc := fun _ => some RemoteError.remoteError

/-- Modelled from the spec: `db_api.registry_create` (the sources only
call it).  Per the Registry Store contract it persists a new subscription
row owned by `engine_id` and fails with `DuplicateSubscription` if a row
for `cluster_id` already exists. -/
def registry_create (store : Store) (cluster_id check_type : String)
    (interval : Nat) (engine_id : String) : Store × Except HMError Registry :=
  if store.any (fun r => r.cluster_id == cluster_id) then
    (store, Except.error HMError.duplicateSubscription)
  else
    (store ++ [Registry.mk cluster_id engine_id check_type interval],
     Except.ok (Registry.mk cluster_id engine_id check_type interval))

/-- Modelled from the spec: `db_api.registry_delete` (the sources only
call it).  Idempotent removal of the row for `cluster_id`. -/
def registry_delete (store : Store) (cluster_id : String) : Store :=
  store.filter (fun r => !(r.cluster_id == cluster_id))

/-- Modelled from the spec: `db_api.registry_claim` (the sources only call
it).  Returns every subscription already owned by `engine_id` together
with every orphaned one (owner not alive), all reassigned to `engine_id`;
the store is updated accordingly.  `alive` is the external liveness signal
for engine instances. -/
def registry_claim (alive : String → Bool) (store : Store) (engine_id : String) :
    Store × List Registry :=
  (store.map (fun r =>
      if r.engine_id == engine_id || !(alive r.engine_id) then
        { r with engine_id := engine_id }
      else r),
   (store.filter (fun r => r.engine_id == engine_id || !(alive r.engine_id))).map
      (fun r => { r with engine_id := engine_id }))

/-- `HealthManager._periodic_check` (leading underscore dropped): builds a
service context and an engine RPC client and issues `cluster_check` for
the cluster.  There is no exception handler, so the outcome of the remote
call — success or failure — is returned unchanged to the caller. -/
def periodic_check (rpc : Rpc) (cluster_id : String) : Option RemoteError :=
  rpc cluster_id

/-- The `for registry in self.registries` loop of `start_periodic_tasks`.
For each `NODE_STATUS_POLLING` registry it computes
`min(registry.interval, periodic_interval_max)` and executes
`TG.add_timer(interval, self._periodic_check(registry.cluster_id))`: the
check is invoked eagerly right here (one dispatch attempt, recorded in the
second component), and if it raises the loop aborts with timers added so
far kept; otherwise its return value `None` (`Callback.noneValue`) is
installed as the timer callback.  Returns (timers added, cluster ids for
which a dispatch was attempted, propagated error if any). -/
def spt_loop (rpc : Rpc) (pmax : Nat) :
    List Registry → List Timer × List String × Option RemoteError
  | [] => ([], [], none)
  | r :: rest =>
    if r.check_type == NODE_STATUS_POLLING then
      match periodic_check rpc r.cluster_id with
      | some e => ([], [r.cluster_id], some e)
      | none =>
        (Timer.mk (min r.interval pmax) Callback.noneValue :: (spt_loop rpc pmax rest).1,
         r.cluster_id :: (spt_loop rpc pmax rest).2.1,
         (spt_loop rpc pmax rest).2.2)
    else spt_loop rpc pmax rest

/-- `HealthManager.start_periodic_tasks`: adds the idle timer with period
`cfg.CONF.periodic_interval` (a configuration value, passed here as
`periodic_interval`), then runs the registry loop.  Returns the updated
state (timers added even when the loop aborts part-way, matching the
partial mutation left by a raised exception), the attempted dispatches,
and the propagated error if any. -/
def start_periodic_tasks (rpc : Rpc) (periodic_interval : Nat) (s : HMState) :
    HMState × List String × Option RemoteError :=
  let res := spt_loop rpc s.periodic_interval_max s.registries
  ({ s with timers := (s.timers ++ [Timer.mk periodic_interval Callback.idleTask]) ++ res.1 },
   res.2.1, res.2.2)

/-- `HealthManager._load_runtime_registry` (leading underscore dropped):
claims registries for this engine from the store and keeps, of the claim
results, those whose `engine_id` equals its own; `rt['registries']` is
replaced by that list. -/
def load_runtime_registry (alive : String → Bool) (store : Store) (s : HMState) :
    Store × HMState :=
  let claimres := registry_claim alive store s.engine_id
  (claimres.1,
   { s with registries := claimres.2.filter (fun r => r.engine_id == s.engine_id) })

/-- `HealthManager.start`: after starting the RPC server (external,
stateless here), loads the runtime registry and starts the periodic
tasks. -/
def start (alive : String → Bool) (rpc : Rpc) (periodic_interval : Nat)
    (store : Store) (s : HMState) :
    Store × HMState × List String × Option RemoteError :=
  let lr := load_runtime_registry alive store s
  let spt := start_periodic_tasks rpc periodic_interval lr.2
  (lr.1, spt.1, spt.2.1, spt.2.2)

/-- `HealthManager.register_cluster`: persists the subscription through
`registry_create` with this instance's `engine_id` as owner and, only
when the create succeeded, appends the returned registry to
`rt['registries']`.  A create failure propagates with no in-memory
mutation. -/
def register_cluster (store : Store) (s : HMState) (cluster_id check_type : String)
    (interval : Nat) : Store × HMState × Option HMError :=
  match registry_create store cluster_id check_type interval s.engine_id with
  | (store1, Except.ok reg) =>
    (store1, { s with registries := s.registries ++ [reg] }, none)
  | (store1, Except.error e) => (store1, s, some e)

/-- The `for registry in self.rt['registries']` removal loop of
`unregister_cluster`, with Python's list-iterator semantics: the loop
walks an index that advances every iteration, and `list.remove` deletes
the element at the current position (registry objects are distinct), so
the element immediately following a removed one is skipped without being
examined. -/
def unreg_loop (cluster_id : String) : List Registry → List Registry
  | [] => []
  | [x] => if x.cluster_id == cluster_id then [] else [x]
  | x :: y :: rest =>
    if x.cluster_id == cluster_id then y :: unreg_loop cluster_id rest
    else x :: unreg_loop cluster_id (y :: rest)

/-- `HealthManager.unregister_cluster`: removes matching registries from
`rt['registries']` (via the removal loop) and deletes the row from the
store; never fails. -/
def unregister_cluster (store : Store) (s : HMState) (cluster_id : String) :
    Store × HMState × Option HMError :=
  (registry_delete store cluster_id,
   { s with registries := unreg_loop cluster_id s.registries },
   none)

/-- Outcome of the messaging-layer `call_context.call` inside `notify`:
the call completes within `engine_life_check_timeout`, raises
`oslo_messaging.MessagingTimeout`, or raises some other messaging-layer
error (e.g. an exception from the remote method surfaced as a remote
error). -/
inductive CallOutcome where
  | completed : CallOutcome
  | messagingTimeout : CallOutcome
  | remoteError : CallOutcome
deriving DecidableEq

/-- An exception escaping the module-level `notify` function. -/
inductive NotifyError where
  | remoteError : NotifyError
deriving DecidableEq

/-- The prepared call target of `notify`: the health-manager topic, with
`server` set to the engine id for a targeted call and left out for a
broadcast. -/
structure CallTarget where
  topic : String
  server : Option String
deriving DecidableEq

/-- `consts.ENGINE_HEALTH_MGR_TOPIC`. -/
def ENGINE_HEALTH_MGR_TOPIC : String := "engine-health-mgr"

/-- The `client.prepare` targeting logic of `notify`: a specific server
when `engine_id` is given, a broadcast target otherwise. -/
def prepare_target (engine_id : Option String) : CallTarget :=
  CallTarget.mk ENGINE_HEALTH_MGR_TOPIC engine_id

/-- Module-level `notify`: prepares the call target, then performs the
call guarded by `except oslo_messaging.MessagingTimeout: return False`.
Only a timeout is converted to `False`; a completed call returns `True`,
and any other failure of the call escapes uncaught. -/
def notify (outcome : CallOutcome) (engine_id : Option String) :
    CallTarget × Except NotifyError Bool :=
  (prepare_target engine_id,
   match outcome with
   | CallOutcome.completed => Except.ok true
   | CallOutcome.messagingTimeout => Except.ok false
   | CallOutcome.remoteError => Except.error NotifyError.remoteError)

/-- Concrete fixtures used by witnesses and counterexamples. -/
def regC1 : Registry := Registry.mk "c1" "e1" NODE_STATUS_POLLING 10

def regC1slow : Registry := Registry.mk "cB" "e1" NODE_STATUS_POLLING 120

def s0 : HMState := hmInit "e1" 60

def sOne : HMState :=
  { engine_id := "e1", periodic_interval_max := 60
    registries := [regC1], timers := [] }

def sSlow : HMState :=
  { engine_id := "e1", periodic_interval_max := 60
    registries := [regC1slow], timers := [] }

def stDup : Store := [Registry.mk "c1" "e9" NODE_STATUS_POLLING 30]

/-- When every dispatched check completes, the registry loop installs one
timer per polling registry, at `min(interval, pmax)`, attempts one
dispatch per polling registry, and propagates no error. -/
theorem spt_loop_rpcOk (pmax : Nat) : (l : List Registry) →
    spt_loop rpcOk pmax l =
      ((l.filter (fun r => r.check_type == NODE_STATUS_POLLING)).map
          (fun r => Timer.mk (min r.interval pmax) Callback.noneValue),
       (l.filter (fun r => r.check_type == NODE_STATUS_POLLING)).map
          (fun r => r.cluster_id),
       none)
  | [] => rfl
  | r :: rest => by
      cases h : r.check_type == NODE_STATUS_POLLING with
      | true =>
        simp only [spt_loop, periodic_check, rpcOk, h, if_true,
          List.filter_cons, spt_loop_rpcOk pmax rest, List.map_cons]
      | false =>
        simp only [spt_loop, h, Bool.false_eq_true, if_false,
          List.filter_cons, spt_loop_rpcOk pmax rest]

/-- The removal loop leaves a list with no matching entry untouched. -/
theorem unreg_loop_of_no_match (cid : String) : (l : List Registry) →
    (∀ r ∈ l, (r.cluster_id == cid) = false) → unreg_loop cid l = l
  | [] => fun _ => rfl
  | [x] => fun h => by
      simp only [unreg_loop, h x (List.mem_singleton.mpr rfl), Bool.false_eq_true, if_false]
  | x :: y :: rest => fun h => by
      have hx := h x (List.mem_cons_self x (y :: rest))
      have htail := unreg_loop_of_no_match cid (y :: rest)
        (fun r hr => h r (List.mem_cons_of_mem x hr))
      simp only [unreg_loop, hx, Bool.false_eq_true, if_false, htail]

/-- When the list holds at most one matching entry, the removal loop
removes every matching entry. -/
theorem unreg_loop_clears (cid : String) : (l : List Registry) →
    (l.filter (fun r => r.cluster_id == cid)).length ≤ 1 →
    ∀ r ∈ unreg_loop cid l, (r.cluster_id == cid) = false
  | [] => by simp [unreg_loop]
  | [x] => fun _ => by
      cases hx : x.cluster_id == cid with
      | true => simp [unreg_loop, hx]
      | false =>
        intro r hr
        simp only [unreg_loop, hx, Bool.false_eq_true, if_false,
          List.mem_singleton] at hr
        subst hr
        exact hx
  | x :: y :: rest => fun hcount => by
      cases hx : x.cluster_id == cid with
      | true =>
        have htail : (y :: rest).filter (fun r => r.cluster_id == cid) = [] := by
          simp [List.filter_cons, hx] at hcount
          simpa [List.filter_cons] using hcount
        have hnone : ∀ r ∈ y :: rest, (r.cluster_id == cid) = false := by
          intro r hr
          have := List.filter_eq_nil_iff.mp htail r hr
          simpa using this
        have hrest : unreg_loop cid rest = rest :=
          unreg_loop_of_no_match cid rest
            (fun r hr => hnone r (List.mem_cons_of_mem y hr))
        intro r hr
        simp only [unreg_loop, hx, if_true, hrest] at hr
        exact hnone r hr
      | false =>
        have hcount2 : ((y :: rest).filter (fun r => r.cluster_id == cid)).length ≤ 1 := by
          simpa only [List.filter_cons, hx, Bool.false_eq_true, if_false] using hcount
        intro r hr
        simp only [unreg_loop, hx, Bool.false_eq_true, if_false, List.mem_cons] at hr
        cases hr with
        | inl h => subst h; exact hx
        | inr h => exact unreg_loop_clears cid (y :: rest) hcount2 r h

/-- Every entry the removal loop keeps was already in the list. -/
theorem unreg_loop_subset (cid : String) : (l : List Registry) →
    ∀ r ∈ unreg_loop cid l, r ∈ l
  | [] => by simp [unreg_loop]
  | [x] => by
      cases hx : x.cluster_id == cid with
      | true => simp [unreg_loop, hx]
      | false => simp [unreg_loop, hx]
  | x :: y :: rest => by
      cases hx : x.cluster_id == cid with
      | true =>
        intro r hr
        simp only [unreg_loop, hx, if_true, List.mem_cons] at hr
        cases hr with
        | inl h => subst h; exact List.mem_cons_of_mem x (List.mem_cons_self r rest)
        | inr h =>
          exact List.mem_cons_of_mem x
            (List.mem_cons_of_mem y (unreg_loop_subset cid rest r h))
      | false =>
        intro r hr
        simp only [unreg_loop, hx, Bool.false_eq_true, if_false, List.mem_cons] at hr
        cases hr with
        | inl h => subst h; exact List.mem_cons_self r (y :: rest)
        | inr h => exact List.mem_cons_of_mem x (unreg_loop_subset cid (y :: rest) r h)

/-- Per pass of the registry loop, each cluster id is dispatched at most
as often as it occurs among the registries: there is no retry within a
pass. -/
theorem spt_loop_count (rpc : Rpc) (pmax : Nat) (c : String) : (l : List Registry) →
    List.count c ((spt_loop rpc pmax l).2.1) ≤ List.count c (l.map (fun r => r.cluster_id))
  | [] => Nat.le_refl 0
  | r :: rest => by
      have ih := spt_loop_count rpc pmax c rest
      cases hr : r.check_type == NODE_STATUS_POLLING with
      | true =>
        cases he : rpc r.cluster_id with
        | some e =>
          simp only [spt_loop, periodic_check, hr, if_true, he, List.map_cons,
            List.count_cons, List.count_nil]
          omega
        | none =>
          simp only [spt_loop, periodic_check, hr, if_true, he, List.map_cons,
            List.count_cons]
          omega
      | false =>
        simp only [spt_loop, hr, Bool.false_eq_true, if_false, List.map_cons,
          List.count_cons]
        omega

/-- Claim C1: the spec requires `start_periodic_tasks` to install the
periodic-check function itself as each polling subscription's timer
callback, with the first firing only after one interval.  The code
instead evaluates `self._periodic_check(registry.cluster_id)` eagerly at
installation time (one immediate dispatch, recorded here as `["c1"]`) and
installs its return value `None` as the callback, so no installed timer
carries the check function. -/
theorem C1_eager_install_bug :
    start_periodic_tasks rpcOk 5 sOne =
      ({ sOne with timers := [Timer.mk 5 Callback.idleTask, Timer.mk 10 Callback.noneValue] },
       ["c1"], none) ∧
    (start_periodic_tasks rpcOk 5 sOne).2.1 = ["c1"] ∧
    ((start_periodic_tasks rpcOk 5 sOne).1.timers.all
        (fun t => !(t.callback == Callback.periodicCheckFn "c1"))) = true :=
  ⟨rfl, rfl, rfl⟩

/-- Claim C2 counterexample: registering a `NODE_STATUS_POLLING` cluster
succeeds, yet the resulting state holds no timer — `register_cluster`
never installs one, contradicting the claim that a timer is installed
when the check type is polling-based. -/
theorem C2_no_timer_cex :
    (register_cluster [] s0 "c1" NODE_STATUS_POLLING 10).2.2 = none ∧
    ((register_cluster [] s0 "c1" NODE_STATUS_POLLING 10).2.1).timers = [] :=
  ⟨rfl, rfl⟩

/-- Claim C2 (amended): `register_cluster` persists the subscription with
the calling instance as owner and appends it to the in-memory owned set,
but installs no timer; its only failure is `DuplicateSubscription`,
surfaced exactly when a row for the cluster id already exists, and on
failure nothing changes. -/
theorem C2_register_cluster_amended (store : Store) (s : HMState)
    (cluster_id check_type : String) (interval : Nat) :
    ((register_cluster store s cluster_id check_type interval).2.1).timers = s.timers ∧
    ((register_cluster store s cluster_id check_type interval).2.2 = none ↔
      store.any (fun r => r.cluster_id == cluster_id) = false) ∧
    ((register_cluster store s cluster_id check_type interval).2.2 = none →
      (register_cluster store s cluster_id check_type interval).1 =
        store ++ [Registry.mk cluster_id s.engine_id check_type interval] ∧
      ((register_cluster store s cluster_id check_type interval).2.1).registries =
        s.registries ++ [Registry.mk cluster_id s.engine_id check_type interval]) ∧
    (∀ e, (register_cluster store s cluster_id check_type interval).2.2 = some e →
      e = HMError.duplicateSubscription ∧
      (register_cluster store s cluster_id check_type interval).1 = store ∧
      (register_cluster store s cluster_id check_type interval).2.1 = s) := by
  cases h : store.any (fun r => r.cluster_id == cluster_id) with
  | true => simp [register_cluster, registry_create, h]
  | false => simp [register_cluster, registry_create, h]

/-- Claim C2 witness: on an empty store the registration appends the new
registry owned by this engine; on a store already holding the cluster id
the state is left untouched. -/
theorem C2_witness :
    ((register_cluster [] s0 "c1" NODE_STATUS_POLLING 10).2.1).registries =
      s0.registries ++ [Registry.mk "c1" s0.engine_id NODE_STATUS_POLLING 10] ∧
    (register_cluster stDup s0 "c1" NODE_STATUS_POLLING 10).2.1 = s0 :=
  ⟨((C2_register_cluster_amended [] s0 "c1" NODE_STATUS_POLLING 10).2.2.1 rfl).2,
   ((C2_register_cluster_amended stDup s0 "c1" NODE_STATUS_POLLING 10).2.2.2
      HMError.duplicateSubscription rfl).2.2⟩

/-- Claim C3 counterexample: a remote failure of the dispatched check is
not swallowed — `periodic_check` returns it unchanged, and it propagates
out of `start_periodic_tasks` (third component of the result). -/
theorem C3_propagation_cex :
    periodic_check rpcFail "c1" = some RemoteError.remoteError ∧
    (start_periodic_tasks rpcFail 5 sOne).2.2 = some RemoteError.remoteError :=
  ⟨rfl, rfl⟩

/-- Claim C3 (amended): a failure of the dispatched remote call is not
swallowed: lacking any handler in `_periodic_check`, it propagates and
aborts the registry loop after a single dispatch attempt for that
cluster; and no retry occurs — within one pass each cluster id is
dispatched at most as often as it occurs among the registries. -/
theorem C3_failure_propagates (rpc : Rpc) (pmax : Nat) (r : Registry)
    (rest : List Registry) (e : RemoteError)
    (hp : r.check_type = NODE_STATUS_POLLING)
    (he : rpc r.cluster_id = some e) :
    spt_loop rpc pmax (r :: rest) = ([], [r.cluster_id], some e) ∧
    ∀ (l : List Registry) (c : String),
      List.count c ((spt_loop rpc pmax l).2.1) ≤
        List.count c (l.map (fun rg => rg.cluster_id)) := by
  constructor
  · simp [spt_loop, periodic_check, hp, he]
  · intro l c
    exact spt_loop_count rpc pmax c l

/-- Claim C3 witness: with a failing remote environment, the loop over a
single polling registry aborts with the remote error after exactly one
dispatch attempt. -/
theorem C3_witness :
    spt_loop rpcFail 60 [regC1] = ([], ["c1"], some RemoteError.remoteError) ∧
    List.count "c1" ((spt_loop rpcFail 60 [regC1]).2.1) ≤
      List.count "c1" ([regC1].map (fun rg => rg.cluster_id)) :=
  ⟨(C3_failure_propagates rpcFail 60 regC1 [] RemoteError.remoteError rfl rfl).1,
   (C3_failure_propagates rpcFail 60 regC1 [] RemoteError.remoteError rfl rfl).2 [regC1] "c1"⟩

/-- Claim C5: every polling subscription's timer is scheduled at
`min(interval, periodic_interval_max)`; in particular interval 10 under
max 60 is scheduled at 10 seconds and interval 120 under max 60 at 60
seconds. -/
theorem C5_effective_interval (periodic_interval : Nat) (s : HMState) :
    (start_periodic_tasks rpcOk periodic_interval s).1.timers =
      s.timers ++ Timer.mk periodic_interval Callback.idleTask ::
        (s.registries.filter (fun r => r.check_type == NODE_STATUS_POLLING)).map
          (fun r => Timer.mk (min r.interval s.periodic_interval_max) Callback.noneValue) ∧
    (start_periodic_tasks rpcOk 7 sOne).1.timers =
      [Timer.mk 7 Callback.idleTask, Timer.mk 10 Callback.noneValue] ∧
    (start_periodic_tasks rpcOk 7 sSlow).1.timers =
      [Timer.mk 7 Callback.idleTask, Timer.mk 60 Callback.noneValue] := by
  refine ⟨?_, rfl, rfl⟩
  simp [start_periodic_tasks, spt_loop_rpcOk, List.append_assoc]

/-- Claim C6 counterexample: a non-timeout failure of the prepared call
is not converted to a boolean — it escapes `notify` as an exception. -/
theorem C6_nontimeout_failure_cex :
    (notify CallOutcome.remoteError (some "e1")).2 =
      Except.error NotifyError.remoteError :=
  rfl

/-- Claim C6 (amended): for every engine id (or broadcast), `notify`
returns `true` when the call completes within the timeout and `false`
when the call raises `MessagingTimeout`; only the timeout is caught, so
any other failure of the call is not turned into a boolean. -/
theorem C6_notify_boolean (engine_id : Option String) :
    (notify CallOutcome.completed engine_id).2 = Except.ok true ∧
    (notify CallOutcome.messagingTimeout engine_id).2 = Except.ok false ∧
    (notify CallOutcome.completed engine_id).1 = prepare_target engine_id :=
  ⟨rfl, rfl, rfl⟩

/-- Claim C10: when the Registry Store create fails (duplicate cluster
id), `register_cluster` propagates the error with the store and the
in-memory owned set left exactly as they were: the new registry is
appended only after the create succeeds. -/
theorem C10_no_partial_mutation (store : Store) (s : HMState)
    (cluster_id check_type : String) (interval : Nat)
    (h : store.any (fun r => r.cluster_id == cluster_id) = true) :
    register_cluster store s cluster_id check_type interval =
      (store, s, some HMError.duplicateSubscription) := by
  simp [register_cluster, registry_create, h]

/-- Claim C10 witness: registering `c1` against a store that already has
a row for `c1` fails with `DuplicateSubscription` and changes nothing. -/
theorem C10_witness :
    register_cluster stDup s0 "c1" NODE_STATUS_POLLING 10 =
      (stDup, s0, some HMError.duplicateSubscription) :=
  C10_no_partial_mutation stDup s0 "c1" NODE_STATUS_POLLING 10 (by decide)

/-- Claim C4: on any state whose owned set holds at most one registry for
the cluster id (the one-subscription-per-cluster data-model invariant),
`unregister_cluster` reports success, a second call yields exactly the
same store and state, and after the first call neither the owned set nor
the store holds an entry for that cluster id. -/
theorem C4_unregister_idempotent (store : Store) (s : HMState) (cluster_id : String)
    (h : (s.registries.filter (fun r => r.cluster_id == cluster_id)).length ≤ 1) :
    (unregister_cluster store s cluster_id).2.2 = none ∧
    unregister_cluster (unregister_cluster store s cluster_id).1
        (unregister_cluster store s cluster_id).2.1 cluster_id =
      unregister_cluster store s cluster_id ∧
    (((unregister_cluster store s cluster_id).2.1).registries.all
        (fun r => !(r.cluster_id == cluster_id))) = true ∧
    (((unregister_cluster store s cluster_id).1).all
        (fun r => !(r.cluster_id == cluster_id))) = true := by
  have hclear := unreg_loop_clears cluster_id s.registries h
  refine ⟨rfl, ?_, ?_, ?_⟩
  · have hst : registry_delete (registry_delete store cluster_id) cluster_id =
        registry_delete store cluster_id := by
      simp [registry_delete, List.filter_filter]
    have hreg : unreg_loop cluster_id (unreg_loop cluster_id s.registries) =
        unreg_loop cluster_id s.registries :=
      unreg_loop_of_no_match cluster_id _ hclear
    simp [unregister_cluster, hst, hreg]
  · rw [List.all_eq_true]
    intro r hr
    simp [hclear r hr]
  · rw [List.all_eq_true]
    intro r hr
    exact (List.mem_filter.mp hr).2

/-- Claim C4 witness: unregistering `c1` from a state owning exactly one
`c1` subscription succeeds, clears it everywhere, and a repeat call is a
no-op. -/
theorem C4_witness :
    (unregister_cluster [regC1] sOne "c1").2.2 = none ∧
    unregister_cluster (unregister_cluster [regC1] sOne "c1").1
        (unregister_cluster [regC1] sOne "c1").2.1 "c1" =
      unregister_cluster [regC1] sOne "c1" ∧
    (((unregister_cluster [regC1] sOne "c1").2.1).registries.all
        (fun r => !(r.cluster_id == "c1"))) = true ∧
    (((unregister_cluster [regC1] sOne "c1").1).all
        (fun r => !(r.cluster_id == "c1"))) = true :=
  C4_unregister_idempotent [regC1] sOne "c1" (by decide)

/-- Claim C7: starting from a fresh instance, `start` first loads the
owned set through the store's claim for its own engine id (keeping only
entries owned by itself) and then schedules exactly one idle heartbeat
timer plus one timer per `NODE_STATUS_POLLING` subscription of that owned
set; non-polling subscriptions and subscriptions not returned by the
claim contribute no timer, and with all dispatches completing no error is
raised. -/
theorem C7_start_schedules (alive : String → Bool) (store : Store)
    (engine_id : String) (pmax periodic_interval : Nat) :
    ((start alive rpcOk periodic_interval store (hmInit engine_id pmax)).2.1).registries =
      ((registry_claim alive store engine_id).2).filter
        (fun r => r.engine_id == engine_id) ∧
    ((start alive rpcOk periodic_interval store (hmInit engine_id pmax)).2.1).timers =
      Timer.mk periodic_interval Callback.idleTask ::
        ((((registry_claim alive store engine_id).2).filter
              (fun r => r.engine_id == engine_id)).filter
            (fun r => r.check_type == NODE_STATUS_POLLING)).map
          (fun r => Timer.mk (min r.interval pmax) Callback.noneValue) ∧
    ((((start alive rpcOk periodic_interval store (hmInit engine_id pmax)).2.1).timers.filter
        (fun t => t.callback == Callback.idleTask)).length = 1) ∧
    (start alive rpcOk periodic_interval store (hmInit engine_id pmax)).2.2.2 = none := by
  have hspt := spt_loop_rpcOk pmax
    (((registry_claim alive store engine_id).2).filter (fun r => r.engine_id == engine_id))
  have hmap : ∀ (l : List Registry),
      ((l.map (fun r => Timer.mk (min r.interval pmax) Callback.noneValue)).filter
        (fun t => t.callback == Callback.idleTask)) = [] := by
    intro l
    refine List.filter_eq_nil_iff.mpr ?_
    intro t ht
    obtain ⟨r, hmem, hrt⟩ := List.mem_map.mp ht
    subst hrt
    simp
  refine ⟨rfl, ?_, ?_, ?_⟩
  · simp [start, load_runtime_registry, start_periodic_tasks, hmInit, hspt]
  · simp [start, load_runtime_registry, start_periodic_tasks, hmInit, hspt,
      List.filter_cons, hmap]
  · simp [start, load_runtime_registry, start_periodic_tasks, hmInit, hspt]

/-- Claim C9: every registry of the in-memory owned set carries this
instance's own engine id: the startup load establishes the invariant
(keeping only matching claim results), and both `register_cluster` (which
creates entries owned by this engine) and `unregister_cluster` (which
only removes entries) preserve it; none of the operations changes the
instance's engine id. -/
theorem C9_owned_set_engine_invariant :
    (∀ (alive : String → Bool) (store : Store) (s : HMState),
      (((load_runtime_registry alive store s).2).registries.all
          (fun r => r.engine_id == s.engine_id)) = true ∧
      ((load_runtime_registry alive store s).2).engine_id = s.engine_id) ∧
    (∀ (store : Store) (s : HMState) (cluster_id check_type : String) (interval : Nat),
      (s.registries.all (fun r => r.engine_id == s.engine_id)) = true →
      (((register_cluster store s cluster_id check_type interval).2.1).registries.all
          (fun r => r.engine_id == s.engine_id)) = true ∧
      ((register_cluster store s cluster_id check_type interval).2.1).engine_id =
        s.engine_id) ∧
    (∀ (store : Store) (s : HMState) (cluster_id : String),
      (s.registries.all (fun r => r.engine_id == s.engine_id)) = true →
      (((unregister_cluster store s cluster_id).2.1).registries.all
          (fun r => r.engine_id == s.engine_id)) = true ∧
      ((unregister_cluster store s cluster_id).2.1).engine_id = s.engine_id) := by
  refine ⟨?_, ?_, ?_⟩
  · intro alive store s
    refine ⟨?_, rfl⟩
    rw [List.all_eq_true]
    intro r hr
    exact (List.mem_filter.mp hr).2
  · intro store s cluster_id check_type interval h
    cases hd : store.any (fun r => r.cluster_id == cluster_id) with
    | true =>
      constructor
      · simpa [register_cluster, registry_create, hd] using h
      · simp [register_cluster, registry_create, hd]
    | false =>
      constructor
      · rw [List.all_eq_true]
        intro r hr
        have hmem : r ∈ s.registries ++
            [Registry.mk cluster_id s.engine_id check_type interval] := by
          simpa [register_cluster, registry_create, hd] using hr
        rcases List.mem_append.mp hmem with h1 | h2
        · exact List.all_eq_true.mp h r h1
        · rw [List.mem_singleton.mp h2]
          simp
      · simp [register_cluster, registry_create, hd]
  · intro store s cluster_id h
    refine ⟨?_, rfl⟩
    rw [List.all_eq_true]
    intro r hr
    exact List.all_eq_true.mp h r (unreg_loop_subset cluster_id s.registries r hr)

/-- Claim C9 witness: the invariant holds after a startup load, after a
successful registration, and after an unregistration, at concrete
inputs. -/
theorem C9_witness :
    ((((load_runtime_registry (fun _ => true) stDup s0).2).registries.all
        (fun r => r.engine_id == s0.engine_id)) = true ∧
      ((load_runtime_registry (fun _ => true) stDup s0).2).engine_id = s0.engine_id) ∧
    ((((register_cluster [] s0 "c1" NODE_STATUS_POLLING 10).2.1).registries.all
        (fun r => r.engine_id == s0.engine_id)) = true ∧
      ((register_cluster [] s0 "c1" NODE_STATUS_POLLING 10).2.1).engine_id =
        s0.engine_id) ∧
    ((((unregister_cluster [regC1] sOne "c1").2.1).registries.all
        (fun r => r.engine_id == sOne.engine_id)) = true ∧
      ((unregister_cluster [regC1] sOne "c1").2.1).engine_id = sOne.engine_id) :=
  ⟨C9_owned_set_engine_invariant.1 (fun _ => true) stDup s0,
   C9_owned_set_engine_invariant.2.1 [] s0 "c1" NODE_STATUS_POLLING 10 (by decide),
   C9_owned_set_engine_invariant.2.2 [regC1] sOne "c1" (by decide)⟩
